import Mathlib

/-! Verification of the xRPC WebSocket subscription client
(`src/websocket.ts`, class `XRpcWebSocketClient`) against its natural-language
specification.  The client state, its message handler, the unsubscribe path,
the close handler, the reconnect scheduler and the event bus are embedded as
executable Lean functions translated line by line from the source; JavaScript
dynamic values that flow through the wire envelopes are modelled by the
`JVal` type together with JavaScript truthiness. -/

/-- Model of a JavaScript value as it appears in a parsed JSON-RPC envelope:
null, a boolean, a number, a string, or an opaque object/array (tagged so that
distinct objects can be told apart; objects are always truthy). -/
inductive JVal where
  | null
  | bool (b : Bool)
  | num (n : Int)
  | str (s : String)
  | obj (tag : Nat)
  deriving DecidableEq, Repr

/-- JavaScript truthiness of a `JVal`: `null`, `false`, `0` and the empty
string are falsy, everything else is truthy. -/
def JVal.truthy : JVal → Bool
  | JVal.null => false
  | JVal.bool b => b
  | JVal.num n => decide (n ≠ 0)
  | JVal.str s => decide (s ≠ "")
  | JVal.obj _ => true

/-- Truthiness of a possibly missing field: a missing field is `undefined`,
which is falsy. -/
def truthyOpt : Option JVal → Bool
  | none => false
  | some v => v.truthy

/-- The JavaScript `a || b` idiom used for defaulting a possibly missing or
falsy integer field (`response.error.code || -32603`). -/
def jsOrInt (o : Option Int) (d : Int) : Int :=
  match o with
  | none => d
  | some v => if v = 0 then d else v

/-- The JavaScript `a || b` idiom used for defaulting a possibly missing or
falsy string field (`response.error.message || '...'`). -/
def jsOrStr (o : Option String) (d : String) : String :=
  match o with
  | none => d
  | some v => if v = "" then d else v

/-- Association-list model of a JavaScript `Map` keyed by `JVal`
(SameValueZero key equality, insertion order preserved): lookup of the first
entry with the given key. -/
def mlookup {α : Type} : List (JVal × α) → JVal → Option α
  | [], _ => none
  | (k', v) :: rest, k => if k' = k then some v else mlookup rest k

/-- `Map.set`: replaces the value in place when the key is present, otherwise
appends the new entry at the end (JS Maps keep insertion order). -/
def mset {α : Type} : List (JVal × α) → JVal → α → List (JVal × α)
  | [], k, v => [(k, v)]
  | (k', v') :: rest, k, v =>
    if k' = k then (k', v) :: rest else (k', v') :: mset rest k v

/-- `Map.delete`: removes the entry with the given key.  Keys of a JS `Map`
are unique, so removing every occurrence agrees with deleting the single
entry. -/
def merase {α : Type} (m : List (JVal × α)) (k : JVal) : List (JVal × α) :=
  m.filter (fun e => !decide (e.1 = k))

/-- The three subscription kinds of `SubscriptionType` in `websocket.ts`. -/
inductive SubscriptionType where
  | newHeads
  | newPendingTransactions
  | logs
  deriving DecidableEq, Repr

/-- Wire name of a subscription kind, as sent in the `eth_subscribe` params. -/
def SubscriptionType.wireName : SubscriptionType → String
  | SubscriptionType.newHeads => "newHeads"
  | SubscriptionType.newPendingTransactions => "newPendingTransactions"
  | SubscriptionType.logs => "logs"

/-- The `Subscription` interface: server-assigned id, kind, original params
and the user callback.  Callbacks are opaque to the client, so they are
modelled by an identifying token; invoking a callback is recorded as an
output effect. -/
structure Subscription where
  id : JVal
  type : SubscriptionType
  params : List JVal
  callback : Nat
  deriving DecidableEq, Repr

/-- The continuation stored in `pendingRequests` for an in-flight request:
the `subscribe` resolve closure captures the kind/params/callback to register
on success, the `unsubscribe` resolve closure captures the subscription id to
delete on confirmed success. -/
inductive PendingKind where
  | psubscribe (type : SubscriptionType) (params : List JVal) (callback : Nat)
  | punsubscribe (subscriptionId : JVal)
  deriving DecidableEq, Repr

/-- State of an `XRpcWebSocketClient` instance.  `ws` is `none` when
`this.ws` is null and `some r` when a WebSocket with `readyState = r`
(0 connecting, 1 open, 2 closing, 3 closed) is bound.  `armedTimers` holds
the per-request timeout timers created by `setTimeout` in
`subscribe`/`unsubscribe`, each with the message its firing would reject the
caller with; a timer leaves this list only when some code path runs
`clearTimeout` on it or when it fires. -/
structure ClientState where
  ws : Option Nat
  subscriptions : List (JVal × Subscription)
  pendingRequests : List (JVal × PendingKind)
  armedTimers : List (JVal × String)
  reconnectAttempts : Nat
  maxReconnectAttempts : Nat
  reconnectTimerArmed : Bool
  isManualClose : Bool
  autoReconnect : Bool
  deriving DecidableEq, Repr

/-- A parsed inbound envelope as `_handleMessage` sees it after
`JSON.parse`: the optional `method`, the optional `params.subscription` and
`params.result` fields of a push, the optional `id`, and the `error` /
`result` fields of a response.  A missing field is `none` (undefined); an
`error` field holding a falsy value is also modelled by `none`, since
`if (response.error)` treats it identically. -/
structure ErrorObj where
  code : Option Int
  message : Option String
  data : Option JVal
  deriving DecidableEq, Repr

structure Envelope where
  method : Option String
  paramsSubscription : Option JVal
  paramsResult : Option JVal
  id : Option JVal
  error : Option ErrorObj
  result : Option JVal
  deriving DecidableEq, Repr

/-- What a waiting caller observes when its promise settles. -/
inductive Outcome where
  | resolvedId (v : JVal)
  | resolvedBool (b : Bool)
  | rejectedError (msg : String)
  | rejectedRpc (code : Int) (msg : String)
  deriving DecidableEq, Repr

/-- The resolve closure stored by `subscribe` (websocket.ts lines 333-358):
on an error object reject with an `XRpcError` built from the defaulted
code/message; otherwise take `response.result` as the subscription id,
reject with `Invalid subscription ID received` when it is falsy or missing,
and otherwise register the subscription under that id and resolve with it. -/
def subscribeResolve (subs : List (JVal × Subscription)) (ty : SubscriptionType)
    (ps : List JVal) (cb : Nat) (m : Envelope) :
    List (JVal × Subscription) × Outcome :=
  match m.error with
  | some e =>
    (subs, Outcome.rejectedRpc (jsOrInt e.code (-32603)) (jsOrStr e.message "Subscription failed"))
  | none =>
    match m.result with
    | some r =>
      if r.truthy then
        (mset subs r { id := r, type := ty, params := ps, callback := cb },
         Outcome.resolvedId r)
      else
        (subs, Outcome.rejectedError "Invalid subscription ID received")
    | none => (subs, Outcome.rejectedError "Invalid subscription ID received")

/-- The resolve closure stored by `unsubscribe` (websocket.ts lines 392-408):
on an error object reject with an `XRpcError`; otherwise `success` is the
strict equality `response.result === true`, the local entry is deleted only
when `success` holds, and the caller resolves with `success`. -/
def unsubscribeResolve (subs : List (JVal × Subscription)) (subscriptionId : JVal)
    (m : Envelope) : List (JVal × Subscription) × Outcome :=
  match m.error with
  | some e =>
    (subs, Outcome.rejectedRpc (jsOrInt e.code (-32603)) (jsOrStr e.message "Unsubscribe failed"))
  | none =>
    if m.result = some (JVal.bool true) then
      (merase subs subscriptionId, Outcome.resolvedBool true)
    else
      (subs, Outcome.resolvedBool false)

/-- Everything `_handleMessage` can do with one parsed envelope: the new
client state, the subscription callbacks invoked (callback token with the
push payload `params.result`), the waiting callers settled (request id with
outcome), and the `error` events emitted (none for a parsed envelope — the
`error` emit in `_handleMessage` fires only when `JSON.parse` throws). -/
structure MsgEffect where
  state : ClientState
  callbackCalls : List (Nat × Option JVal)
  outcomes : List (JVal × Outcome)
  errorEvents : List String
  deriving DecidableEq, Repr

/-- `_handleMessage` (websocket.ts lines 532-559) on a parsed envelope.
A message with `method === 'eth_subscription'` is a push: when
`params.subscription` is truthy and registered, exactly that callback is
invoked with `params.result`, otherwise the push is dropped.  Any other
message whose `id` matches a pending request is a response: the entry is
deleted, its timeout cleared, and the stored resolve closure runs.
Everything else is ignored. -/
def handleMessage (s : ClientState) (m : Envelope) : MsgEffect :=
  if m.method = some "eth_subscription" then
    match m.paramsSubscription with
    | some sid =>
      if sid.truthy then
        match mlookup s.subscriptions sid with
        | some sub =>
          { state := s, callbackCalls := [(sub.callback, m.paramsResult)],
            outcomes := [], errorEvents := [] }
        | none => { state := s, callbackCalls := [], outcomes := [], errorEvents := [] }
      else { state := s, callbackCalls := [], outcomes := [], errorEvents := [] }
    | none => { state := s, callbackCalls := [], outcomes := [], errorEvents := [] }
  else
    match m.id with
    | some mid =>
      match mlookup s.pendingRequests mid with
      | some pk =>
        let s1 : ClientState :=
          { s with pendingRequests := merase s.pendingRequests mid,
                   armedTimers := s.armedTimers.filter (fun t => !decide (t.1 = mid)) }
        match pk with
        | PendingKind.psubscribe ty ps cb =>
          let r := subscribeResolve s1.subscriptions ty ps cb m
          { state := { s1 with subscriptions := r.1 }, callbackCalls := [],
            outcomes := [(mid, r.2)], errorEvents := [] }
        | PendingKind.punsubscribe sid =>
          let r := unsubscribeResolve s1.subscriptions sid m
          { state := { s1 with subscriptions := r.1 }, callbackCalls := [],
            outcomes := [(mid, r.2)], errorEvents := [] }
      | none => { state := s, callbackCalls := [], outcomes := [], errorEvents := [] }
    | none => { state := s, callbackCalls := [], outcomes := [], errorEvents := [] }

/-- Result of calling `unsubscribe(subscriptionId)` (websocket.ts lines
373-418) up to its first suspension point: it throws when the id is not
registered; with the connection not open it deletes the local entry and
returns `false` (the Bool argument of `localRemoval`); with the connection
open it registers a pending request plus its timeout timer and sends
`eth_unsubscribe` with the id as sole parameter.  The fresh request id
produced by `_generateRequestId` is passed in as `rid`. -/
inductive UnsubscribeStart where
  | notFoundError (subscriptionId : JVal)
  | localRemoval (s : ClientState) (returned : Bool)
  | requestIssued (s : ClientState) (rid : JVal) (method : String) (params : List JVal)
  deriving DecidableEq, Repr

def unsubscribeCall (s : ClientState) (subId rid : JVal) : UnsubscribeStart :=
  match mlookup s.subscriptions subId with
  | none => UnsubscribeStart.notFoundError subId
  | some _ =>
    if s.ws = some 1 then
      UnsubscribeStart.requestIssued
        { s with pendingRequests := mset s.pendingRequests rid (PendingKind.punsubscribe subId),
                 armedTimers := s.armedTimers ++ [(rid, "Unsubscribe request timeout")] }
        rid "eth_unsubscribe" [subId]
    else
      UnsubscribeStart.localRemoval
        { s with subscriptions := merase s.subscriptions subId } false

/-- The synchronous part of `subscribe` once the connection is open
(websocket.ts lines 324-366): register the pending request with its resolve
closure, arm the timeout timer, and send `eth_subscribe` with the kind
followed by the params. -/
def subscribeCall (s : ClientState) (ty : SubscriptionType) (ps : List JVal)
    (cb : Nat) (rid : JVal) : ClientState × String × List JVal :=
  ({ s with pendingRequests := mset s.pendingRequests rid (PendingKind.psubscribe ty ps cb),
            armedTimers := s.armedTimers ++ [(rid, "Subscribe request timeout")] },
   "eth_subscribe", JVal.str ty.wireName :: ps)

/-- The per-request timeout timer firing (websocket.ts lines 327-330 and
386-389): it deletes the map entry for its request id — a no-op when the
entry is already gone — and rejects its caller with the captured timeout
message, unconditionally.  The pair returned alongside the state is the
rejection delivered. -/
def requestTimeoutFire (s : ClientState) (t : JVal × String) :
    ClientState × (JVal × String) :=
  ({ s with pendingRequests := merase s.pendingRequests t.1,
            armedTimers := s.armedTimers.filter (fun u => !decide (u = t)) },
   t)

/-- `_scheduleReconnect` (websocket.ts lines 561-570), state part: bail out
once `reconnectAttempts` has reached `maxReconnectAttempts`; otherwise
increment the counter, emit a `reconnect` event carrying the new count
(returned as `some`), and arm the reconnect timer. -/
def scheduleReconnectState (s : ClientState) : ClientState × Option Nat :=
  if s.maxReconnectAttempts ≤ s.reconnectAttempts then (s, none)
  else
    ({ s with reconnectAttempts := s.reconnectAttempts + 1, reconnectTimerArmed := true },
     some (s.reconnectAttempts + 1))

/-- Effects of the `close` handler (websocket.ts lines 206-224): every entry
of `pendingRequests` is rejected with `WebSocket connection closed` and its
timeout cleared, the map is emptied, and — only when the closure was not
manual and auto-reconnect is on — `_scheduleReconnect` runs, whose emitted
`reconnect` event (if any) is reported in `reconnectEvent`. -/
structure CloseEffect where
  state : ClientState
  closeRejections : List (JVal × String)
  reconnectEvent : Option Nat
  deriving DecidableEq, Repr

def handleClose (s : ClientState) : CloseEffect :=
  let rejs := s.pendingRequests.map (fun p => (p.1, "WebSocket connection closed"))
  let s1 : ClientState :=
    { s with pendingRequests := [],
             armedTimers := s.armedTimers.filter (fun t => (mlookup s.pendingRequests t.1).isNone) }
  if !s.isManualClose && s.autoReconnect then
    let r := scheduleReconnectState s1
    { state := r.1, closeRejections := rejs, reconnectEvent := r.2 }
  else
    { state := s1, closeRejections := rejs, reconnectEvent := none }

/-- Synchronous effects of `disconnect()` (websocket.ts lines 248-279) for a
client whose subscription registry is empty, so that the best-effort
unsubscribe sweep iterates zero entries and `Promise.allSettled([])` is a
no-op.  In source order: set `isManualClose`, clear the reconnect timer,
close and null the transport, clear the subscription and pending maps.  No
statement of `disconnect` rejects a pending caller, so `closedRejections`
is empty, and `pendingRequests.clear()` does not run `clearTimeout` on the
per-request timers, so `armedTimers` is untouched.  The transport close
event this triggers runs `handleClose` later, against the state returned
here. -/
structure DisconnectEffect where
  state : ClientState
  closedRejections : List (JVal × String)
  deriving DecidableEq, Repr

def disconnectEmptyRegistry (s : ClientState) : DisconnectEffect :=
  { state :=
      { s with isManualClose := true, reconnectTimerArmed := false,
               ws := none, subscriptions := [], pendingRequests := [] },
    closedRejections := [] }

/-- `getState()` (websocket.ts lines 423-444). -/
def getState (s : ClientState) : String :=
  match s.ws with
  | none => "closed"
  | some rs =>
    if rs = 0 then "connecting"
    else if rs = 1 then "open"
    else if rs = 2 then "closing"
    else "closed"

/-- Which path `connect()` (websocket.ts lines 138-162) takes, decided
synchronously from `this.ws`: already open returns at once, an attempt in
progress is awaited by polling, anything else constructs a new WebSocket. -/
inductive ConnectPath where
  | alreadyConnected
  | awaitInflight
  | newBinding
  deriving DecidableEq, Repr

def connectCall (s : ClientState) : ConnectPath :=
  if s.ws = some 1 then ConnectPath.alreadyConnected
  else if s.ws = some 0 then ConnectPath.awaitInflight
  else ConnectPath.newBinding

/-- Outcome of the in-flight-attempt wait of `connect()` (websocket.ts lines
146-161): a 100 ms interval polls `readyState`, resolving on 1 and rejecting
`Connection failed` on 3, while a timer of the configured timeout rejects
`Connection timeout`.  The argument lists the `readyState` values observed
at the poll ticks that occur before the timeout fires; exhausting the list
means the timeout fired first. -/
inductive WaitOutcome where
  | resolvedOpen
  | rejectedFailed (msg : String)
  | rejectedTimeout (msg : String)
  deriving DecidableEq, Repr

def waitForOpen : List Nat → WaitOutcome
  | [] => WaitOutcome.rejectedTimeout "Connection timeout"
  | rs :: rest =>
    if rs = 1 then WaitOutcome.resolvedOpen
    else if rs = 3 then WaitOutcome.rejectedFailed "Connection failed"
    else waitForOpen rest

/-- The event bus `on` (websocket.ts lines 463-471): registration appends to
the listener list of the event kind.  Listeners are opaque, modelled by
identifying tokens; each event kind has its own independent list, and the
theorems quantify over one such list. -/
def onListener (ls : List Nat) (l : Nat) : List Nat := ls ++ [l]

/-- Effects of `_emit` (websocket.ts lines 603-616): the listeners invoked in
order, and those whose exception the `try/catch` caught and logged.  The
behaviour of each listener is abstracted by a predicate telling whether its
invocation throws. -/
structure EmitEffect where
  invoked : List Nat
  caught : List Nat
  deriving DecidableEq, Repr

def emitStep (throws : Nat → Bool) (eff : EmitEffect) (l : Nat) : EmitEffect :=
  if throws l then { invoked := eff.invoked ++ [l], caught := eff.caught ++ [l] }
  else { invoked := eff.invoked ++ [l], caught := eff.caught }

def emitAll (ls : List Nat) (throws : Nat → Bool) : EmitEffect :=
  ls.foldl (emitStep throws) { invoked := [], caught := [] }

/-- Well-formedness of the subscription registry: every registered key is
truthy.  `subscribeResolve` is the only code that inserts and it guards the
key with `if (!subscriptionId) reject`, so every reachable registry
satisfies this. -/
def SubsWF (m : List (JVal × Subscription)) : Prop :=
  ∀ k v, mlookup m k = some v → k.truthy = true

/-- Timed model of the request correlator (the `pendingRequests` map with
its timeout timers, websocket.ts lines 326-330, 385-389 and 549-554).
`now` counts milliseconds; `pending` holds each in-flight request id with
the absolute deadline of its armed `setTimeout`; `timedOut` records every
timeout rejection delivered, with the time it fired; `resolvedIds` records
the requests settled by a matching response. -/
structure CorrState where
  now : Nat
  pending : List (JVal × Nat)
  timedOut : List (JVal × Nat)
  resolvedIds : List JVal
  deriving DecidableEq, Repr

/-- Events driving the correlator: one millisecond of time (the runtime
fires every timer whose deadline has arrived) or the arrival of a response
envelope carrying the given id (`_handleMessage` settles a matching pending
entry and silently ignores an unmatched one). -/
inductive CorrEvent where
  | tick
  | respond (rid : JVal)
  deriving DecidableEq, Repr

def corrStep (c : CorrState) : CorrEvent → CorrState
  | CorrEvent.tick =>
    let now1 := c.now + 1
    { now := now1,
      pending := c.pending.filter (fun p => !decide (p.2 ≤ now1)),
      timedOut := c.timedOut ++
        (c.pending.filter (fun p => decide (p.2 ≤ now1))).map (fun p => (p.1, now1)),
      resolvedIds := c.resolvedIds }
  | CorrEvent.respond rid =>
    if (mlookup c.pending rid).isSome then
      { c with pending := c.pending.filter (fun p => !decide (p.1 = rid)),
               resolvedIds := c.resolvedIds ++ [rid] }
    else c

def corrRun (c : CorrState) (es : List CorrEvent) : CorrState :=
  es.foldl corrStep c

/-- Driver for the reconnect scenario: the environment events that reach the
client after it was connected.  `transportClosed` is the transport signalling
an unexpected close, handled by `handleClose`.  `timerFireConnectFail` is the
armed reconnect timer firing with the subsequent `connect()` attempt failing:
the timer callback resets `isManualClose`, the attempt leaves a socket whose
`readyState` ends at 3, the rejected `connect()` promise makes the callback
catch call `_scheduleReconnect`, and the failed socket also fires its own
close event so `handleClose` runs too — both orders of those two calls
produce the same state since each runs the same guarded `_scheduleReconnect`. -/
inductive DriveEvent where
  | transportClosed
  | timerFireConnectFail
  deriving DecidableEq, Repr

def driveStep (p : ClientState × List Nat) : DriveEvent → ClientState × List Nat
  | DriveEvent.transportClosed =>
    let eff := handleClose { p.1 with ws := some 3 }
    (eff.state, p.2 ++ eff.reconnectEvent.toList)
  | DriveEvent.timerFireConnectFail =>
    if p.1.reconnectTimerArmed then
      let s1 : ClientState :=
        { p.1 with reconnectTimerArmed := false, isManualClose := false, ws := some 3 }
      let r := scheduleReconnectState s1
      let eff := handleClose r.1
      (eff.state, p.2 ++ r.2.toList ++ eff.reconnectEvent.toList)
    else p

def driveRun (p : ClientState × List Nat) (es : List DriveEvent) : ClientState × List Nat :=
  es.foldl driveStep p

/-- Client as constructed with `maxReconnectAttempts = 2` and default
options, connected, with no subscriptions and no traffic: the starting point
of the C3 scenario. -/
def c3Init : ClientState :=
  { ws := some 1, subscriptions := [], pendingRequests := [], armedTimers := [],
    reconnectAttempts := 0, maxReconnectAttempts := 2, reconnectTimerArmed := false,
    isManualClose := false, autoReconnect := true }

/-- The C3 scenario: one unexpected closure followed by the two scheduled
reconnect attempts, both of whose `connect()` calls fail. -/
def c3Final : ClientState × List Nat :=
  driveRun (c3Init, [])
    [DriveEvent.transportClosed, DriveEvent.timerFireConnectFail, DriveEvent.timerFireConnectFail]

/-- State of the resubscribe loop of `_scheduleReconnect`
(websocket.ts lines 577-585) after a successful reconnect.  `subs` is the
live `subscriptions` map in insertion order and `toVisit` the entries its
`for ... of this.subscriptions.entries()` iterator has still to yield.  A JS
Map iterator is live: it yields entries in insertion order, skips entries
deleted before being reached, and does yield entries inserted while the
iteration is in progress.  `freshCtr` counts the `eth_subscribe` requests
issued by the loop, which is also the source of the fresh server-assigned
ids. -/
structure ReplayState where
  subs : List (JVal × Subscription)
  toVisit : List (JVal × Subscription)
  freshCtr : Nat
  deriving DecidableEq, Repr

/-- Fresh server-assigned id of the n-th replay response: concrete pairwise
distinct truthy values, all distinct from the pre-reconnect string id. -/
def freshId (n : Nat) : JVal := JVal.num (Int.ofNat n + 1)

/-- One iteration of the resubscribe loop body on the entry the live
iterator yields next.  When the awaited `subscribe` succeeds the response
handler has executed `subscriptions.set(newId, ...)` — appending a new entry
when the key is new — and the loop body then runs
`subscriptions.delete(id)` on the old id; the appended entry lies after the
iterator position, so it is pushed onto `toVisit`.  When `subscribe` fails
the error is only logged and the old entry stays. -/
def replayStep (resubOk : Subscription → Bool) (st : ReplayState) : ReplayState :=
  match st.toVisit with
  | [] => st
  | (id, sub) :: rest =>
    if resubOk sub then
      let nid := freshId st.freshCtr
      let nsub : Subscription := { sub with id := nid }
      let isNew := (mlookup st.subs nid).isNone
      { subs := merase (mset st.subs nid nsub) id,
        toVisit := rest ++ (if isNew then [(nid, nsub)] else []),
        freshCtr := st.freshCtr + 1 }
    else
      { st with toVisit := rest }

/-- The single subscription active before the reconnect of the C2 scenario. -/
def replayInitSub : Subscription :=
  { id := JVal.str "old", type := SubscriptionType.newHeads, params := [], callback := 7 }

/-- Loop state at the moment the resubscribe loop starts: the registry holds
exactly the pre-reconnect subscription and the iterator is about to yield
it. -/
def replayInit : ReplayState :=
  { subs := [(JVal.str "old", replayInitSub)],
    toVisit := [(JVal.str "old", replayInitSub)], freshCtr := 0 }

/-- The map entry present after n iterations of the replay loop in the C2
scenario: the original entry for n = 0, afterwards the entry created by the
n-th successful resubscription. -/
def replayEntry : Nat → JVal × Subscription
  | 0 => (JVal.str "old", replayInitSub)
  | Nat.succ k => (freshId k, { replayInitSub with id := freshId k })

/-- Concrete client state for the C1 counterexample: connected, an empty
subscription registry and exactly one in-flight request whose timeout timer
is armed. -/
def c1S : ClientState :=
  { ws := some 1, subscriptions := [],
    pendingRequests := [(JVal.str "req-1", PendingKind.psubscribe SubscriptionType.newHeads [] 4)],
    armedTimers := [(JVal.str "req-1", "Subscribe request timeout")],
    reconnectAttempts := 0, maxReconnectAttempts := 2, reconnectTimerArmed := false,
    isManualClose := false, autoReconnect := true }

/-- Concrete states and envelopes exercising the claim theorems. -/
def wSub : Subscription :=
  { id := JVal.str "0xabc", type := SubscriptionType.newHeads, params := [], callback := 9 }

def c6S : ClientState :=
  { ws := some 1, subscriptions := [(JVal.str "0xabc", wSub)], pendingRequests := [],
    armedTimers := [], reconnectAttempts := 0, maxReconnectAttempts := 2,
    reconnectTimerArmed := false, isManualClose := false, autoReconnect := true }

def c6Push : Envelope :=
  { method := some "eth_subscription", paramsSubscription := some (JVal.str "0xabc"),
    paramsResult := some (JVal.obj 16), id := none, error := none, result := none }

def c9S : ClientState :=
  { ws := some 1, subscriptions := [],
    pendingRequests := [(JVal.str "req-2", PendingKind.psubscribe SubscriptionType.logs [JVal.obj 1] 5)],
    armedTimers := [(JVal.str "req-2", "Subscribe request timeout")],
    reconnectAttempts := 0, maxReconnectAttempts := 2, reconnectTimerArmed := false,
    isManualClose := false, autoReconnect := true }

def c9Resp : Envelope :=
  { method := none, paramsSubscription := none, paramsResult := none,
    id := some (JVal.str "req-2"), error := none, result := some JVal.null }

def c10Resp : Envelope :=
  { method := none, paramsSubscription := none, paramsResult := none,
    id := some (JVal.str "ghost"), error := none, result := some (JVal.bool true) }

def c5OkResp : Envelope :=
  { method := none, paramsSubscription := none, paramsResult := none,
    id := some (JVal.str "req-3"), error := none, result := some (JVal.bool true) }

def c4S : CorrState :=
  { now := 0, pending := [(JVal.str "q", 3)], timedOut := [], resolvedIds := [] }

def c4Trace : List CorrEvent :=
  [CorrEvent.respond (JVal.str "other"), CorrEvent.tick, CorrEvent.tick,
   CorrEvent.tick, CorrEvent.tick]

/-- The sublist of entries keyed by a given request id, used to track one
request through a correlator trace. -/
def keyed (rid : JVal) (l : List (JVal × Nat)) : List (JVal × Nat) :=
  l.filter (fun e => decide (e.1 = rid))

/-- Invariant tying one request (id `rid`, deadline `D`) to a correlator
state: either the request is still pending with its deadline ahead and no
timeout delivered yet, or it has been timed out exactly once, at exactly
time `D`, and is no longer pending. -/
def CorrInv (rid : JVal) (D : Nat) (c : CorrState) : Prop :=
  (keyed rid c.pending = [(rid, D)] ∧ c.now < D ∧ keyed rid c.timedOut = []) ∨
  (keyed rid c.pending = [] ∧ keyed rid c.timedOut = [(rid, D)])

/-! Helper lemmas about the map and list operations of the embedding. -/

theorem mlookup_merase_self {α : Type} (m : List (JVal × α)) (k : JVal) :
    mlookup (merase m k) k = none := by
  induction m with
  | nil => rfl
  | cons a t ih =>
    obtain ⟨ka, va⟩ := a
    unfold merase at ih ⊢
    rw [List.filter_cons]
    by_cases h : ka = k
    · simpa [h] using ih
    · simpa [h, mlookup] using ih

theorem filter_comm {α : Type} (p q : α → Bool) (l : List α) :
    (l.filter p).filter q = (l.filter q).filter p := by
  induction l with
  | nil => rfl
  | cons a t ih =>
    by_cases hp : p a <;> by_cases hq : q a <;>
      simp [List.filter_cons, hp, hq, ih]

theorem filter_map_fst (l : List (JVal × Nat)) (t : Nat) (p : JVal → Bool) :
    (l.map (fun e => (e.1, t))).filter (fun e => p e.1) =
      (l.filter (fun e => p e.1)).map (fun e => (e.1, t)) := by
  induction l with
  | nil => rfl
  | cons a r ih =>
    by_cases hp : p a.1 <;> simp [List.filter_cons, hp, ih]

theorem keyFilter_nil_lookup {α : Type} (m : List (JVal × α)) (k : JVal)
    (h : m.filter (fun e => decide (e.1 = k)) = []) : mlookup m k = none := by
  induction m with
  | nil => rfl
  | cons a t ih =>
    obtain ⟨ka, va⟩ := a
    rw [List.filter_cons] at h
    by_cases hk : ka = k
    · rw [if_pos (by simp [hk])] at h
      exact absurd h (List.cons_ne_nil _ _)
    · rw [if_neg (by simp [hk])] at h
      unfold mlookup
      rw [if_neg hk]
      exact ih h

theorem emitAll_go (throws : Nat → Bool) (ls : List Nat) (eff : EmitEffect) :
    ls.foldl (emitStep throws) eff =
      { invoked := eff.invoked ++ ls, caught := eff.caught ++ ls.filter throws } := by
  induction ls generalizing eff with
  | nil => simp
  | cons a t ih =>
    rw [List.foldl_cons, ih]
    unfold emitStep
    cases h : throws a <;> simp [List.filter_cons, h]

/-- C7: for every event kind and every sequence of registered listeners,
`_emit` invokes every registered listener synchronously in registration
order (the invoked list is exactly the listener list), an exception thrown
by a listener is caught and logged rather than propagated (the caught list
collects exactly the throwing listeners while the remaining listeners are
still invoked), and `on` appends, so a listener registered later is invoked
after the earlier ones. -/
theorem C7_emit_delivery (ls : List Nat) (throws : Nat → Bool) (l : Nat) :
    (emitAll ls throws).invoked = ls ∧
    (emitAll ls throws).caught = ls.filter throws ∧
    (emitAll (onListener ls l) throws).invoked = ls ++ [l] := by
  unfold emitAll onListener
  rw [emitAll_go, emitAll_go]
  simp

/-- C8: `connect()` is idempotent.  When the socket is already open it takes
the early-return path without constructing a new transport binding; when an
attempt is in progress it takes the polling path that waits on the in-flight
attempt instead of opening a duplicate, and that wait resolves once a poll
observes the socket open, or rejects with the `Connection timeout` error
when the configured duration elapses with no poll observing a terminal
state. -/
theorem C8_connect_idempotent :
    (∀ s : ClientState, s.ws = some 1 → connectCall s = ConnectPath.alreadyConnected) ∧
    (∀ s : ClientState, s.ws = some 0 → connectCall s = ConnectPath.awaitInflight) ∧
    (∀ obs : List Nat, (∀ r ∈ obs, r ≠ 1 ∧ r ≠ 3) →
      waitForOpen obs = WaitOutcome.rejectedTimeout "Connection timeout") ∧
    (∀ obs rest : List Nat, (∀ r ∈ obs, r ≠ 1 ∧ r ≠ 3) →
      waitForOpen (obs ++ 1 :: rest) = WaitOutcome.resolvedOpen) := by
  refine ⟨?_, ?_, ?_, ?_⟩
  · intro s h
    unfold connectCall
    rw [h]
    rfl
  · intro s h
    unfold connectCall
    rw [h]
    rfl
  · intro obs h
    induction obs with
    | nil => rfl
    | cons a t ih =>
      obtain ⟨h1, h3⟩ := h a (List.mem_cons_self a t)
      unfold waitForOpen
      rw [if_neg h1, if_neg h3]
      exact ih (fun r hr => h r (List.mem_cons_of_mem a hr))
  · intro obs rest h
    induction obs with
    | nil => rfl
    | cons a t ih =>
      obtain ⟨h1, h3⟩ := h a (List.mem_cons_self a t)
      rw [List.cons_append]
      unfold waitForOpen
      rw [if_neg h1, if_neg h3]
      exact ih (fun r hr => h r (List.mem_cons_of_mem a hr))

/-- Witness for C8 at concrete states: a client whose socket is open, one
whose socket is connecting, a poll trace that never turns decisive, and one
that turns open on the second poll. -/
theorem C8_connect_idempotent_witness :
    connectCall c6S = ConnectPath.alreadyConnected ∧
    connectCall { c6S with ws := some 0 } = ConnectPath.awaitInflight ∧
    waitForOpen [0, 0] = WaitOutcome.rejectedTimeout "Connection timeout" ∧
    waitForOpen ([0] ++ 1 :: [3]) = WaitOutcome.resolvedOpen :=
  ⟨C8_connect_idempotent.1 c6S rfl,
   C8_connect_idempotent.2.1 { c6S with ws := some 0 } rfl,
   C8_connect_idempotent.2.2.1 [0, 0] (by decide),
   C8_connect_idempotent.2.2.2 [0] [3] (by decide)⟩

/-- C10: an inbound envelope that is not a push and whose `id` is missing or
matches no pending request leaves `_handleMessage` with no effect at all:
the returned state is the input state (so the pending-request map, the
subscription registry and the connection state are unchanged), no callback
runs, no caller settles, and no `error` event is emitted. -/
theorem C10_unmatched_response_ignored (s : ClientState) (m : Envelope)
    (hm : m.method ≠ some "eth_subscription")
    (hid : ∀ mid, m.id = some mid → mlookup s.pendingRequests mid = none) :
    handleMessage s m = { state := s, callbackCalls := [], outcomes := [], errorEvents := [] } := by
  unfold handleMessage
  rw [if_neg hm]
  cases hmid : m.id with
  | none => rfl
  | some mid => simp only [hid mid hmid]

/-- Witness for C10: a response carrying an id no pending request uses. -/
theorem C10_unmatched_response_ignored_witness :
    handleMessage c9S c10Resp =
      { state := c9S, callbackCalls := [], outcomes := [], errorEvents := [] } :=
  C10_unmatched_response_ignored c9S c10Resp (by decide)
    (fun mid h => by
      have h2 : JVal.str "ghost" = mid := by
        have h3 : some (JVal.str "ghost") = some mid := h
        injection h3
      rw [← h2]
      decide)

/-- C9: a subscribe response with no error object but a falsy (or missing)
`result` rejects the waiting subscribe caller with the
`Invalid subscription ID received` error and registers nothing: the
subscription registry after `_handleMessage` is the registry before. -/
theorem C9_falsy_subscribe_result (s : ClientState) (m : Envelope) (rid : JVal)
    (ty : SubscriptionType) (ps : List JVal) (cb : Nat)
    (hm : m.method ≠ some "eth_subscription")
    (hid : m.id = some rid)
    (hp : mlookup s.pendingRequests rid = some (PendingKind.psubscribe ty ps cb))
    (herr : m.error = none)
    (hres : truthyOpt m.result = false) :
    (handleMessage s m).outcomes = [(rid, Outcome.rejectedError "Invalid subscription ID received")] ∧
    (handleMessage s m).state.subscriptions = s.subscriptions := by
  unfold handleMessage
  rw [if_neg hm]
  simp only [hid, hp]
  cases hr : m.result with
  | none =>
    simp [subscribeResolve, herr, hr]
  | some r =>
    have hrt : r.truthy = false := by
      rw [hr] at hres
      simpa [truthyOpt] using hres
    simp only [subscribeResolve, herr, hr, hrt]
    simp

/-- Witness for C9: a pending subscribe request answered by a response whose
`result` is null. -/
theorem C9_falsy_subscribe_result_witness :
    (handleMessage c9S c9Resp).outcomes =
      [(JVal.str "req-2", Outcome.rejectedError "Invalid subscription ID received")] ∧
    (handleMessage c9S c9Resp).state.subscriptions = c9S.subscriptions :=
  C9_falsy_subscribe_result c9S c9Resp (JVal.str "req-2") SubscriptionType.logs
    [JVal.obj 1] 5 (by decide) rfl (by decide) rfl rfl

theorem subsWF_singleton (k0 : JVal) (sub : Subscription) (h : k0.truthy = true) :
    SubsWF [(k0, sub)] := by
  intro k v hl
  simp only [mlookup] at hl
  split at hl
  · next heq => rw [← heq]; exact h
  · cases hl

/-- C6: push dispatch of `_handleMessage`.  Under the registry invariant
that every registered id is truthy (the only insertion site guards falsy
ids), a push envelope whose `params.subscription` is registered invokes
exactly that subscription's callback with the push payload and nothing else
— no other callback, no caller settled, no error event, no state change —
while a push whose subscription id is unknown or missing is silently
dropped: no callback, no error event, no state change. -/
theorem C6_push_dispatch (s : ClientState) (m : Envelope)
    (hwf : SubsWF s.subscriptions)
    (hm : m.method = some "eth_subscription") :
    (∀ sid sub, m.paramsSubscription = some sid →
        mlookup s.subscriptions sid = some sub →
        handleMessage s m =
          { state := s, callbackCalls := [(sub.callback, m.paramsResult)],
            outcomes := [], errorEvents := [] }) ∧
    ((∀ sid, m.paramsSubscription = some sid → mlookup s.subscriptions sid = none) →
      handleMessage s m =
        { state := s, callbackCalls := [], outcomes := [], errorEvents := [] }) := by
  constructor
  · intro sid sub hps hl
    have ht : sid.truthy = true := hwf sid sub hl
    unfold handleMessage
    rw [if_pos hm]
    simp only [hps, ht, hl]
    rfl
  · intro hnone
    unfold handleMessage
    rw [if_pos hm]
    cases hps : m.paramsSubscription with
    | none => rfl
    | some sid =>
      cases ht : sid.truthy with
      | false => simp [ht]
      | true => simp [ht, hnone sid hps]

/-- Witness for C6: a registered push is dispatched to its callback, and the
same envelope against an empty registry is dropped. -/
theorem C6_push_dispatch_witness :
    handleMessage c6S c6Push =
      { state := c6S, callbackCalls := [(9, some (JVal.obj 16))],
        outcomes := [], errorEvents := [] } ∧
    handleMessage { c6S with subscriptions := [] } c6Push =
      { state := { c6S with subscriptions := [] }, callbackCalls := [],
        outcomes := [], errorEvents := [] } :=
  ⟨(C6_push_dispatch c6S c6Push
      (subsWF_singleton (JVal.str "0xabc") wSub (by decide)) rfl).1
      (JVal.str "0xabc") wSub rfl rfl,
   (C6_push_dispatch { c6S with subscriptions := [] } c6Push
      (fun k v hl => by cases hl) rfl).2
      (fun sid h => rfl)⟩

/-- C5: the `unsubscribe(subscriptionId)` contract.  An id not in the
registry throws the not-found error; a registered id with the connection not
open deletes the local entry and returns `false`; a registered id with the
connection open issues an `eth_unsubscribe` request carrying exactly that id
(arming the request timeout), and the response handler removes the local
entry if and only if the response has no error object and its result is
strictly `true`. -/
theorem C5_unsubscribe_contract (s : ClientState) (subId rid : JVal) :
    (mlookup s.subscriptions subId = none →
      unsubscribeCall s subId rid = UnsubscribeStart.notFoundError subId) ∧
    (∀ sub, mlookup s.subscriptions subId = some sub → s.ws ≠ some 1 →
      unsubscribeCall s subId rid =
        UnsubscribeStart.localRemoval
          { s with subscriptions := merase s.subscriptions subId } false) ∧
    (∀ sub, mlookup s.subscriptions subId = some sub → s.ws = some 1 →
      unsubscribeCall s subId rid =
        UnsubscribeStart.requestIssued
          { s with pendingRequests := mset s.pendingRequests rid (PendingKind.punsubscribe subId),
                   armedTimers := s.armedTimers ++ [(rid, "Unsubscribe request timeout")] }
          rid "eth_unsubscribe" [subId] ∧
      ∀ m : Envelope,
        (mlookup (unsubscribeResolve s.subscriptions subId m).1 subId = none ↔
          m.error = none ∧ m.result = some (JVal.bool true))) := by
  refine ⟨?_, ?_, ?_⟩
  · intro h
    unfold unsubscribeCall
    simp only [h]
  · intro sub h hw
    unfold unsubscribeCall
    simp only [h]
    rw [if_neg hw]
  · intro sub h hw
    constructor
    · unfold unsubscribeCall
      simp only [h]
      rw [if_pos hw]
    · intro m
      unfold unsubscribeResolve
      cases herr : m.error with
      | some e =>
        constructor
        · intro hnone
          have hnone2 : mlookup s.subscriptions subId = none := hnone
          rw [h] at hnone2
          cases hnone2
        · rintro ⟨h1, h2⟩
          cases h1
      | none =>
        by_cases hres : m.result = some (JVal.bool true)
        · rw [if_pos hres]
          constructor
          · intro hnone
            exact ⟨rfl, hres⟩
          · intro hconj
            exact mlookup_merase_self s.subscriptions subId
        · rw [if_neg hres]
          constructor
          · intro hnone
            have hnone2 : mlookup s.subscriptions subId = none := hnone
            rw [h] at hnone2
            cases hnone2
          · rintro ⟨h1, h2⟩
            exact absurd h2 hres

/-- Witness for C5 at a concrete client: unsubscribing a registered id over
an open connection issues the wire request, and a confirming response
removes the local entry. -/
theorem C5_unsubscribe_contract_witness :
    unsubscribeCall c6S (JVal.str "0xabc") (JVal.str "req-3") =
      UnsubscribeStart.requestIssued
        { c6S with
            pendingRequests :=
              mset c6S.pendingRequests (JVal.str "req-3")
                (PendingKind.punsubscribe (JVal.str "0xabc")),
            armedTimers := c6S.armedTimers ++ [(JVal.str "req-3", "Unsubscribe request timeout")] }
        (JVal.str "req-3") "eth_unsubscribe" [JVal.str "0xabc"] ∧
    mlookup (unsubscribeResolve c6S.subscriptions (JVal.str "0xabc") c5OkResp).1
      (JVal.str "0xabc") = none := by
  have h := (C5_unsubscribe_contract c6S (JVal.str "0xabc") (JVal.str "req-3")).2.2
    wSub (by decide) rfl
  exact ⟨h.1, (h.2 c5OkResp).mpr ⟨rfl, rfl⟩⟩

/-- Counterexample to C1 as stated: a connected client with N = 1 in-flight
request (and an empty registry, so the unsubscribe sweep of `disconnect` is
vacuous).  `disconnect()` itself delivers no rejection at all — it clears
the pending map without calling any stored `reject` — and the deferred
transport close event then runs the close handler against the already
emptied map, so it too rejects nobody.  Hence the one waiting caller is not
failed with the `WebSocket connection closed` error, contradicting the
claim that all N in-flight callers are failed with a ConnectionClosed-class
error by `disconnect()`. -/
theorem C1_counterexample :
    c1S.pendingRequests.length = 1 ∧
    (disconnectEmptyRegistry c1S).closedRejections = [] ∧
    (handleClose (disconnectEmptyRegistry c1S).state).closeRejections = [] := by
  exact ⟨rfl, rfl, rfl⟩

/-- C1 as amended: `disconnect()` on a client with an empty registry and any
set of in-flight requests resolves and rejects none of them with the
connection-closed error — it clears the pending map, the deferred close
handler then finds nothing to reject and schedules no reconnect — while
every per-request timeout timer stays armed, so each waiting caller is
later failed by its own timer firing with its request-timeout error, and
after that firing the pending map no longer holds the entry. -/
theorem C1_amended_disconnect (s : ClientState) (hsubs : s.subscriptions = []) :
    (disconnectEmptyRegistry s).closedRejections = [] ∧
    (disconnectEmptyRegistry s).state.pendingRequests = [] ∧
    (disconnectEmptyRegistry s).state.armedTimers = s.armedTimers ∧
    (handleClose (disconnectEmptyRegistry s).state).closeRejections = [] ∧
    (handleClose (disconnectEmptyRegistry s).state).reconnectEvent = none ∧
    ∀ t ∈ s.armedTimers,
      (requestTimeoutFire (disconnectEmptyRegistry s).state t).2 = t ∧
      mlookup (requestTimeoutFire (disconnectEmptyRegistry s).state t).1.pendingRequests t.1 =
        none := by
  refine ⟨rfl, rfl, rfl, rfl, rfl, ?_⟩
  intro t ht
  exact ⟨rfl, rfl⟩

/-- Witness for C1 as amended, at the counterexample state. -/
theorem C1_amended_disconnect_witness :
    (disconnectEmptyRegistry c1S).closedRejections = [] ∧
    (disconnectEmptyRegistry c1S).state.armedTimers = c1S.armedTimers ∧
    (requestTimeoutFire (disconnectEmptyRegistry c1S).state
        (JVal.str "req-1", "Subscribe request timeout")).2 =
      (JVal.str "req-1", "Subscribe request timeout") := by
  have h := C1_amended_disconnect c1S rfl
  exact ⟨h.1, h.2.2.1, (h.2.2.2.2.2 (JVal.str "req-1", "Subscribe request timeout")
    (List.mem_singleton.mpr rfl)).1⟩

/-- C3: with `maxReconnectAttempts = 2`, an unexpected closure followed by
two failed reconnect attempts emits exactly the two `reconnect` events,
with attempt numbers 1 and 2; afterwards the reconnect timer is not armed,
`getState()` reports `closed`, and no continuation of the run — further
spurious transport closes or timer fires — changes the event list or arms
a timer again, so no third attempt is ever scheduled and no further
`reconnect` event fires. -/
theorem C3_reconnect_gives_up :
    c3Final.2 = [1, 2] ∧
    c3Final.1.reconnectTimerArmed = false ∧
    getState c3Final.1 = "closed" ∧
    ∀ es : List DriveEvent, driveRun c3Final es = c3Final := by
  refine ⟨by decide, by decide, by decide, ?_⟩
  intro es
  induction es with
  | nil => rfl
  | cons e t ih =>
    have hfix : driveStep c3Final e = c3Final := by
      cases e <;> decide
    have hstep : driveRun c3Final (e :: t) = driveRun (driveStep c3Final e) t := rfl
    rw [hstep, hfix]
    exact ih

theorem freshId_ne_succ (j : Nat) : freshId j ≠ freshId (j + 1) := by
  unfold freshId
  simp only [ne_eq, JVal.num.injEq, Int.ofNat_eq_coe]
  omega

theorem replayEntry_fst_ne (k : Nat) : (replayEntry k).1 ≠ freshId k := by
  cases k with
  | zero => decide
  | succ j =>
    show freshId j ≠ freshId (j + 1)
    exact freshId_ne_succ j

theorem replayStep_single (a : JVal) (sub : Subscription) (k : Nat) (h : a ≠ freshId k) :
    replayStep (fun _ => true) { subs := [(a, sub)], toVisit := [(a, sub)], freshCtr := k } =
      { subs := [(freshId k, { sub with id := freshId k })],
        toVisit := [(freshId k, { sub with id := freshId k })], freshCtr := k + 1 } := by
  unfold replayStep
  simp only [mlookup, mset, merase]
  rw [if_neg h]
  simp [h, Ne.symm h, List.filter]

theorem replay_iterate (n : Nat) :
    (replayStep (fun _ => true))^[n] replayInit =
      { subs := [replayEntry n], toVisit := [replayEntry n], freshCtr := n } := by
  induction n with
  | zero => rfl
  | succ k ih =>
    rw [Function.iterate_succ_apply', ih]
    have hupd : ({ (replayEntry k).2 with id := freshId k } : Subscription) =
        { replayInitSub with id := freshId k } := by
      cases k <;> rfl
    have hent : (replayEntry k) = ((replayEntry k).1, (replayEntry k).2) := rfl
    rw [hent, replayStep_single (replayEntry k).1 (replayEntry k).2 k (replayEntry_fst_ne k),
      hupd]
    rfl

/-- C2 fails on the code: the resubscribe loop of `_scheduleReconnect`
iterates the live `subscriptions` Map while each successful replay inserts
the freshly assigned entry, which the live iterator then also visits, so in
the scenario of one active subscription whose replays all succeed the loop
never terminates — after any number n of iterations the iterator still has
exactly one entry to visit, and n `eth_subscribe` requests have already
been issued.  The registry never stabilises on a fresh id and the
post-reconnect subscription set claimed by C2 is never reached. -/
theorem C2_replay_nonterminating (n : Nat) :
    ((replayStep (fun _ => true))^[n] replayInit).toVisit.length = 1 ∧
    ((replayStep (fun _ => true))^[n] replayInit).freshCtr = n := by
  rw [replay_iterate]
  exact ⟨rfl, rfl⟩

theorem keyed_filter (rid : JVal) (q : JVal × Nat → Bool) (l : List (JVal × Nat)) :
    keyed rid (l.filter q) = (keyed rid l).filter q := by
  unfold keyed
  exact filter_comm q (fun e => decide (e.1 = rid)) l

theorem keyed_append (rid : JVal) (l1 l2 : List (JVal × Nat)) :
    keyed rid (l1 ++ l2) = keyed rid l1 ++ keyed rid l2 := by
  unfold keyed
  simp [List.filter_append]

theorem keyed_map_time (rid : JVal) (l : List (JVal × Nat)) (t : Nat) :
    keyed rid (l.map (fun e => (e.1, t))) = (keyed rid l).map (fun e => (e.1, t)) := by
  unfold keyed
  exact filter_map_fst l t (fun k => decide (k = rid))

theorem corr_tick_now (c : CorrState) : (corrStep c CorrEvent.tick).now = c.now + 1 := rfl

theorem corr_tick_pending (c : CorrState) :
    (corrStep c CorrEvent.tick).pending =
      c.pending.filter (fun p => !decide (p.2 ≤ c.now + 1)) := rfl

theorem corr_tick_timedOut (c : CorrState) :
    (corrStep c CorrEvent.tick).timedOut =
      c.timedOut ++
        (c.pending.filter (fun p => decide (p.2 ≤ c.now + 1))).map (fun p => (p.1, c.now + 1)) :=
  rfl

theorem corr_respond_eq (c : CorrState) (rid2 : JVal) :
    corrStep c (CorrEvent.respond rid2) =
      if (mlookup c.pending rid2).isSome then
        { c with pending := c.pending.filter (fun p => !decide (p.1 = rid2)),
                 resolvedIds := c.resolvedIds ++ [rid2] }
      else c := rfl

theorem corrStep_inv (rid : JVal) (D : Nat) (c : CorrState) (e : CorrEvent)
    (hne : e ≠ CorrEvent.respond rid) (h : CorrInv rid D c) :
    CorrInv rid D (corrStep c e) := by
  cases e with
  | tick =>
    unfold CorrInv at h ⊢
    rw [corr_tick_now, corr_tick_pending, corr_tick_timedOut]
    rcases h with ⟨hp, hn, ht⟩ | ⟨hp, ht⟩
    · by_cases hD : D ≤ c.now + 1
      · have hDeq : c.now + 1 = D := Nat.le_antisymm hn hD
        right
        constructor
        · rw [keyed_filter, hp]
          simp [hD]
        · rw [keyed_append, ht, keyed_map_time, keyed_filter, hp]
          simp [hD, hDeq]
      · left
        refine ⟨?_, by omega, ?_⟩
        · rw [keyed_filter, hp]
          simp [hD]
        · rw [keyed_append, ht, keyed_map_time, keyed_filter, hp]
          simp [hD]
    · right
      constructor
      · rw [keyed_filter, hp]
        rfl
      · rw [keyed_append, ht, keyed_map_time, keyed_filter, hp]
        rfl
  | respond rid2 =>
    have hr2 : rid2 ≠ rid := fun hh => hne (by rw [hh])
    rw [corr_respond_eq]
    by_cases hl : (mlookup c.pending rid2).isSome
    · rw [if_pos hl]
      unfold CorrInv at h ⊢
      rcases h with ⟨hp, hn, ht⟩ | ⟨hp, ht⟩
      · left
        refine ⟨?_, hn, ht⟩
        rw [keyed_filter, hp]
        simp [Ne.symm hr2]
      · right
        refine ⟨?_, ht⟩
        rw [keyed_filter, hp]
        rfl
    · rw [if_neg hl]
      exact h

theorem corrRun_inv (rid : JVal) (D : Nat) (es : List CorrEvent) (c : CorrState)
    (h : CorrInv rid D c) (hnr : CorrEvent.respond rid ∉ es) :
    CorrInv rid D (corrRun c es) := by
  induction es generalizing c with
  | nil => exact h
  | cons e t ih =>
    have hstep : corrRun c (e :: t) = corrRun (corrStep c e) t := rfl
    rw [hstep]
    refine ih (corrStep c e)
      (corrStep_inv rid D c e (fun hh => hnr (by rw [hh]; exact List.mem_cons_self _ _)) h)
      (fun hm => hnr (List.mem_cons_of_mem e hm))

/-- C4: a request whose matching response never arrives is failed by the
correlator with its timeout error no later than its deadline, and the
pending map no longer holds the entry afterwards, so a second timeout for
the same id is impossible.  Formally: starting from a correlator state in
which request `rid` is the unique entry under its id, its deadline `D`
still ahead and no timeout for it delivered yet, any event run containing
no response for `rid` and ending at or past the deadline leaves exactly one
timeout rejection for `rid`, recorded at exactly time `D` (hence no later
than the deadline, and delivered exactly once), and no pending entry for
`rid`. -/
theorem C4_request_timeout (c0 : CorrState) (es : List CorrEvent) (rid : JVal) (D : Nat)
    (hp : keyed rid c0.pending = [(rid, D)])
    (hn : c0.now < D)
    (ht : keyed rid c0.timedOut = [])
    (hnr : CorrEvent.respond rid ∉ es)
    (hend : D ≤ (corrRun c0 es).now) :
    keyed rid (corrRun c0 es).timedOut = [(rid, D)] ∧
    mlookup (corrRun c0 es).pending rid = none := by
  have hinv := corrRun_inv rid D es c0 (Or.inl ⟨hp, hn, ht⟩) hnr
  rcases hinv with ⟨_, hlt, _⟩ | ⟨hp2, ht2⟩
  · omega
  · exact ⟨ht2, keyFilter_nil_lookup _ _ hp2⟩

/-- Witness for C4: one pending request with deadline 3, an unrelated
response and four milliseconds of time — the caller is timed out exactly at
time 3 and the entry is gone. -/
theorem C4_request_timeout_witness :
    keyed (JVal.str "q") (corrRun c4S c4Trace).timedOut = [(JVal.str "q", 3)] ∧
    mlookup (corrRun c4S c4Trace).pending (JVal.str "q") = none :=
  C4_request_timeout c4S c4Trace (JVal.str "q") 3 (by decide) (by decide) (by decide)
    (by decide) (by decide)
